import Mathlib

/-!
Shallow embedding of `store/connection.go` from the rqlite repository:
the `Connection` handle and the `TxStateChange` transaction-state
detector, together with proofs of the specified properties.

Modelling conventions:
* Go `time.Time` values are modelled as `Nat`; the Go zero time is `0`
  (`IsZero` becomes `= 0`) and `time.Now()` becomes an explicit `now`
  parameter.
* The engine call `c.db.TransactionActive()` is an external observation,
  modelled as an explicit boolean argument; within one `CheckAndSet`
  call the lock is held, so the observation is stable.
* A Go `panic` is modelled by a dedicated result constructor that
  carries the state after the deferred assignments have run during
  unwinding.
* The store collaborator's `execute` is modelled as an abstract
  state-passing function so that the number of calls and their
  arguments are observable.
-/

namespace RqliteStore

/-- Embedding of `ExecuteRequest` as used positionally at the call site
`&ExecuteRequest{[]string{"ROLLBACK"}, false, false}`: a list of SQL
statements and two boolean flags. -/
structure ExecuteRequest where
  Queries : List String
  Timings : Bool
  Transaction : Bool
  deriving Repr, DecidableEq

/-- Embedding of the `Connection` struct's data fields. The `db`, `store`
and `logger` pointers are external collaborators and are passed to the
operations that use them; the two mutexes are concurrency artefacts with
no sequential content. -/
structure Connection where
  id : Nat
  createdAt : Nat
  lastUsedAt : Nat
  txStartedAt : Nat
  deriving Repr, DecidableEq

/-- Embedding of `NewConnection`: `createdAt` is stamped with the current
time, all other time fields take Go zero values. -/
def NewConnection (id now : Nat) : Connection :=
  { id := id, createdAt := now, lastUsedAt := 0, txStartedAt := 0 }

/-- Values appearing in the serialized status map. -/
inductive JVal where
  | num (n : Nat)
  | str (s : String)
  | time (t : Nat)
  deriving Repr, DecidableEq

/-- Modelled from the spec: `enabledFromBool` lives outside this source
file; per the spec it renders the foreign-key-constraint mode for the
status view. Only the presence of the rendered value matters here. -/
def enabledFromBool (b : Bool) : String :=
  if b then "enabled" else "disabled"

/-- Embedding of `Connection.MarshalJSON`. The engine call
`c.db.FKConstraints()` is modelled by the `fkRes` argument; an engine
error is returned unmodified. The Go map with distinct keys is modelled
as an association list in insertion order; `tx_started_at` and
`last_used_at` are inserted only when non-zero. -/
def MarshalJSON (c : Connection) (fkRes : Except String Bool) :
    Except String (List (String × JVal)) :=
  match fkRes with
  | .error e => .error e
  | .ok fk =>
      .ok ([("fk_constraints", JVal.str (enabledFromBool fk)),
            ("id", JVal.num c.id),
            ("created_at", JVal.time c.createdAt)]
        ++ (if c.txStartedAt ≠ 0 then [("tx_started_at", JVal.time c.txStartedAt)] else [])
        ++ (if c.lastUsedAt ≠ 0 then [("last_used_at", JVal.time c.lastUsedAt)] else []))

/-- The rollback request built inside `AbortTransaction`:
`&ExecuteRequest{[]string{"ROLLBACK"}, false, false}`. -/
def rollbackRequest : ExecuteRequest :=
  { Queries := ["ROLLBACK"], Timings := false, Transaction := false }

/-- Embedding of `Connection.AbortTransaction`. The store's `execute` is
an abstract effectful function threaded through a state `σ`; the method
makes one call with the connection itself and the rollback request, and
returns the error component unmodified. -/
def AbortTransaction {σ Resp Err : Type} (c : Connection)
    (execute : σ → Connection → ExecuteRequest → σ × Resp × Option Err)
    (s : σ) : σ × Option Err :=
  let r := execute s c rollbackRequest
  (r.1, r.2.2)

/-- A call-logging instrumentation of a pure store behaviour `f`: the
state records every (connection, request) pair passed to `execute`. -/
def loggingExecute {Resp Err : Type}
    (f : Connection → ExecuteRequest → Resp × Option Err) :
    List (Connection × ExecuteRequest) → Connection → ExecuteRequest →
      List (Connection × ExecuteRequest) × Resp × Option Err :=
  fun log c r => (log ++ [(c, r)], f c r)

/-- Embedding of the `TxStateChange` struct: the transaction-active flag
captured at construction and the completion flag. The owning connection
(held by pointer in Go) is passed explicitly to `CheckAndSet`. -/
structure TxStateChange where
  tx : Bool
  done : Bool
  deriving Repr, DecidableEq

/-- Embedding of `NewTxStateChange`: captures the engine's
transaction-active observation; `done` takes its zero value. -/
def NewTxStateChange (txActive : Bool) : TxStateChange :=
  { tx := txActive, done := false }

/-- Result of a `CheckAndSet` call: either a normal return or a panic.
Both carry the detector and connection state after the call, including
the effect of the deferred `t.done = true` assignment, which in Go runs
during panic unwinding as well. -/
inductive CASResult where
  | ok (t : TxStateChange) (c : Connection)
  | aborted (t : TxStateChange) (c : Connection)
  deriving Repr, DecidableEq

/-- Detector state after a `CheckAndSet` call. -/
def CASResult.detector : CASResult → TxStateChange
  | .ok t _ => t
  | .aborted t _ => t

/-- Connection state after a `CheckAndSet` call. -/
def CASResult.conn : CASResult → Connection
  | .ok _ c => c
  | .aborted _ c => c

/-- Whether the call panicked. -/
def CASResult.isAborted : CASResult → Bool
  | .ok _ _ => false
  | .aborted _ _ => true

/-- Embedding of `TxStateChange.CheckAndSet`. `txActive` is the engine's
`TransactionActive()` observation at call time and `now` the current
time. The deferred `t.done = true` runs on every path, including the
panic path. -/
def CheckAndSet (t : TxStateChange) (c : Connection) (txActive : Bool)
    (now : Nat) : CASResult :=
  if t.done then
    .aborted { t with done := true } c
  else if !t.tx && txActive && decide (c.txStartedAt = 0) then
    .ok { t with done := true } { c with txStartedAt := now }
  else if t.tx && !txActive && !decide (c.txStartedAt = 0) then
    .ok { t with done := true } { c with txStartedAt := 0 }
  else
    .ok { t with done := true } c

/-- Reachable connection states under the detector protocol described in
the spec: the store creates a detector capturing the engine's current
transaction-active state, the engine's state may then change while SQL
is issued, and the detector is reconciled against the new engine state.
The pair tracks the connection together with the engine state reported
at the most recent reconciliation (`false` for a fresh connection, whose
engine session has no active transaction). `time.Now()` is positive. -/
inductive Reachable : Connection → Bool → Prop where
  | init (id now : Nat) : Reachable (NewConnection id now) false
  | step (c c' : Connection) (e e' : Bool) (now : Nat) (t' : TxStateChange) :
      0 < now → Reachable c e →
      CheckAndSet (NewTxStateChange e) c e' now = .ok t' c' →
      Reachable c' e'

/-- The `txStartedAt` value the four-outcome table of spec §4.2
prescribes for a construction/reconciliation observation pair. -/
def tableOutcome (txAtNew txAtCheck : Bool) (prev now : Nat) : Nat :=
  match txAtNew, txAtCheck with
  | false, false => prev
  | false, true  => if prev = 0 then now else prev
  | true,  true  => prev
  | true,  false => 0

/-- C1: on its first invocation, `CheckAndSet` returns normally and
performs exactly the `txStartedAt` mutation of the four-outcome table of
spec §4.2 — no-op; set to current time when previously unset; no-op;
clear to zero when previously set — leaving every other connection field
unchanged. -/
theorem checkAndSet_outcome_table (t : TxStateChange) (c : Connection)
    (txActive : Bool) (now : Nat) (hdone : t.done = false) :
    ∃ c', CheckAndSet t c txActive now = .ok { t with done := true } c' ∧
      c'.txStartedAt = tableOutcome t.tx txActive c.txStartedAt now ∧
      c'.id = c.id ∧ c'.createdAt = c.createdAt ∧
      c'.lastUsedAt = c.lastUsedAt := by
  cases t with
  | mk tx done =>
    subst hdone
    cases tx <;> cases txActive <;>
      simp only [CheckAndSet, tableOutcome, Bool.not_true, Bool.not_false,
        Bool.false_and, Bool.true_and, Bool.and_false, Bool.and_true,
        if_false, Bool.false_eq_true, if_neg, Bool.not_eq_true] <;>
      by_cases h : c.txStartedAt = 0 <;>
      simp [h]

/-- C1 witness: the table theorem applied at a concrete first call
(detector saw no transaction, engine now active, start time unset). -/
theorem checkAndSet_outcome_table_witness :
    (NewTxStateChange false).done = false ∧
      ∃ c', CheckAndSet (NewTxStateChange false) (NewConnection 1 5) true 7 =
            .ok { NewTxStateChange false with done := true } c' ∧
        c'.txStartedAt =
          tableOutcome (NewTxStateChange false).tx true
            (NewConnection 1 5).txStartedAt 7 ∧
        c'.id = (NewConnection 1 5).id ∧
        c'.createdAt = (NewConnection 1 5).createdAt ∧
        c'.lastUsedAt = (NewConnection 1 5).lastUsedAt :=
  ⟨rfl, checkAndSet_outcome_table (NewTxStateChange false) (NewConnection 1 5)
    true 7 rfl⟩

/-- C2: after any first `CheckAndSet` run — whatever the observed flags,
times and connection state, and whether or not that run itself panicked
— the resulting detector makes every further `CheckAndSet` panic,
leaving the connection untouched. -/
theorem checkAndSet_second_call_panics (t : TxStateChange)
    (c₁ c₂ : Connection) (e₁ e₂ : Bool) (n₁ n₂ : Nat) :
    CheckAndSet ((CheckAndSet t c₁ e₁ n₁).detector) c₂ e₂ n₂ =
      .aborted ((CheckAndSet t c₁ e₁ n₁).detector) c₂ := by
  unfold CheckAndSet
  split <;> [skip; split <;> [skip; split]] <;> rfl

/-- C5: when the start time is unset, an active → not-active observation
is a no-op on a first call: no panic and no mutation of the connection at
all. -/
theorem checkAndSet_active_to_inactive_unset_noop (t : TxStateChange)
    (c : Connection) (now : Nat) (hdone : t.done = false)
    (htx : t.tx = true) (hunset : c.txStartedAt = 0) :
    CheckAndSet t c false now = .ok { t with done := true } c := by
  unfold CheckAndSet
  simp [hdone, htx, hunset]

/-- C5 witness: concrete active → not-active call with unset start time. -/
theorem checkAndSet_active_to_inactive_unset_noop_witness :
    (NewTxStateChange true).done = false ∧ (NewTxStateChange true).tx = true ∧
      (NewConnection 2 3).txStartedAt = 0 ∧
      CheckAndSet (NewTxStateChange true) (NewConnection 2 3) false 9 =
        .ok { NewTxStateChange true with done := true } (NewConnection 2 3) :=
  ⟨rfl, rfl, rfl,
    checkAndSet_active_to_inactive_unset_noop (NewTxStateChange true)
      (NewConnection 2 3) 9 rfl rfl rfl⟩

/-- C4: when the start time is already set, a not-active → active
observation leaves the existing `txStartedAt` (and the rest of the
connection) unchanged rather than overwriting it with a new time. -/
theorem checkAndSet_no_overwrite_when_set (t : TxStateChange)
    (c : Connection) (now : Nat) (hdone : t.done = false)
    (htx : t.tx = false) (hset : c.txStartedAt ≠ 0) :
    CheckAndSet t c true now = .ok { t with done := true } c := by
  unfold CheckAndSet
  simp [hdone, htx, hset]

/-- C4 witness: concrete not-active → active call with start time already
set to 11; the connection comes back bitwise unchanged. -/
theorem checkAndSet_no_overwrite_when_set_witness :
    (NewTxStateChange false).done = false ∧
      (NewTxStateChange false).tx = false ∧
      ({ NewConnection 4 5 with txStartedAt := 11 } : Connection).txStartedAt ≠ 0 ∧
      CheckAndSet (NewTxStateChange false)
          { NewConnection 4 5 with txStartedAt := 11 } true 20 =
        .ok { NewTxStateChange false with done := true }
          { NewConnection 4 5 with txStartedAt := 11 } :=
  ⟨rfl, rfl, by decide,
    checkAndSet_no_overwrite_when_set (NewTxStateChange false)
      { NewConnection 4 5 with txStartedAt := 11 } 20 rfl rfl (by decide)⟩

/-- C10: every `CheckAndSet` invocation — normal or panicking — leaves
the connection's `id`, `createdAt` and `lastUsedAt` unchanged, leaves the
detector's captured flag unchanged, and leaves `done` true (the deferred
assignment runs during unwinding as well); moreover a panicking call
leaves the whole connection unchanged. -/
theorem checkAndSet_frame (t : TxStateChange) (c : Connection) (e : Bool)
    (now : Nat) :
    (CheckAndSet t c e now).conn.id = c.id ∧
      (CheckAndSet t c e now).conn.createdAt = c.createdAt ∧
      (CheckAndSet t c e now).conn.lastUsedAt = c.lastUsedAt ∧
      (CheckAndSet t c e now).detector.done = true ∧
      (CheckAndSet t c e now).detector.tx = t.tx ∧
      ((CheckAndSet t c e now).isAborted = false ∨ (CheckAndSet t c e now).conn = c) := by
  unfold CheckAndSet
  split <;> [skip; split <;> [skip; split]] <;>
    simp [CASResult.conn, CASResult.detector, CASResult.isAborted]

/-- A first `CheckAndSet` call on a freshly constructed detector never
panics; its result is the branch structure of the source written out. -/
theorem checkAndSet_fresh (e e' : Bool) (c : Connection) (now : Nat) :
    CheckAndSet (NewTxStateChange e) c e' now =
      .ok { tx := e, done := true }
        (if !e && e' && decide (c.txStartedAt = 0) then
          { c with txStartedAt := now }
         else if e && !e' && !decide (c.txStartedAt = 0) then
          { c with txStartedAt := 0 }
         else c) := by
  unfold CheckAndSet NewTxStateChange
  simp only [Bool.false_eq_true, if_false]
  split <;> [rfl; split <;> rfl]

/-- C3: in every reachable state, the connection's `txStartedAt` is
non-zero exactly when the engine reported an active transaction at the
most recent reconciliation. -/
theorem reachable_txStartedAt_iff_active (c : Connection) (e : Bool)
    (h : Reachable c e) : c.txStartedAt ≠ 0 ↔ e = true := by
  induction h with
  | init id now => simp [NewConnection]
  | step c c' e e' now t' hnow _ hcas ih =>
      rw [checkAndSet_fresh] at hcas
      injection hcas with h1 h2
      subst h2
      cases e <;> cases e' <;> by_cases hz : c.txStartedAt = 0 <;>
        (simp_all; try omega)

/-- C3 witness: the invariant applied to a freshly created connection. -/
theorem reachable_txStartedAt_iff_active_witness :
    ((NewConnection 1 5).txStartedAt ≠ 0 ↔ false = true) :=
  reachable_txStartedAt_iff_active (NewConnection 1 5) false
    (Reachable.init 1 5)

/-- C6: whenever `MarshalJSON` succeeds, the rendered status contains the
connection's id, its creation time and the foreign-key-constraint mode;
it contains the transaction-start timestamp exactly when `txStartedAt`
is non-zero and the last-used timestamp exactly when `lastUsedAt` is
non-zero. -/
theorem marshalJSON_fields (c : Connection) (fkRes : Except String Bool)
    (m : List (String × JVal)) (h : MarshalJSON c fkRes = .ok m) :
    ("id", JVal.num c.id) ∈ m ∧
      ("created_at", JVal.time c.createdAt) ∈ m ∧
      (∃ fk, ("fk_constraints", JVal.str (enabledFromBool fk)) ∈ m) ∧
      (("tx_started_at", JVal.time c.txStartedAt) ∈ m ↔ c.txStartedAt ≠ 0) ∧
      (("last_used_at", JVal.time c.lastUsedAt) ∈ m ↔ c.lastUsedAt ≠ 0) := by
  cases fkRes with
  | error e => simp [MarshalJSON] at h
  | ok fk =>
      simp only [MarshalJSON, Except.ok.injEq] at h
      subst h
      refine ⟨by simp, by simp, ⟨fk, by simp⟩, ?_, ?_⟩ <;>
        by_cases h1 : c.txStartedAt = 0 <;>
        by_cases h2 : c.lastUsedAt = 0 <;>
        simp [h1, h2]

/-- C6 witness: the field theorem applied to a connection with both
optional timestamps set. -/
theorem marshalJSON_fields_witness :
    MarshalJSON ⟨1, 5, 7, 9⟩ (.ok true) =
        .ok [("fk_constraints", JVal.str "enabled"), ("id", JVal.num 1),
             ("created_at", JVal.time 5), ("tx_started_at", JVal.time 9),
             ("last_used_at", JVal.time 7)] ∧
      (("id", JVal.num 1) ∈
          [("fk_constraints", JVal.str "enabled"), ("id", JVal.num 1),
           ("created_at", JVal.time 5), ("tx_started_at", JVal.time 9),
           ("last_used_at", JVal.time 7)] ∧
        ("created_at", JVal.time 5) ∈
          [("fk_constraints", JVal.str "enabled"), ("id", JVal.num 1),
           ("created_at", JVal.time 5), ("tx_started_at", JVal.time 9),
           ("last_used_at", JVal.time 7)] ∧
        (∃ fk, ("fk_constraints", JVal.str (enabledFromBool fk)) ∈
          [("fk_constraints", JVal.str "enabled"), ("id", JVal.num 1),
           ("created_at", JVal.time 5), ("tx_started_at", JVal.time 9),
           ("last_used_at", JVal.time 7)]) ∧
        (("tx_started_at", JVal.time 9) ∈
            [("fk_constraints", JVal.str "enabled"), ("id", JVal.num 1),
             ("created_at", JVal.time 5), ("tx_started_at", JVal.time 9),
             ("last_used_at", JVal.time 7)] ↔ (9 : Nat) ≠ 0) ∧
        (("last_used_at", JVal.time 7) ∈
            [("fk_constraints", JVal.str "enabled"), ("id", JVal.num 1),
             ("created_at", JVal.time 5), ("tx_started_at", JVal.time 9),
             ("last_used_at", JVal.time 7)] ↔ (7 : Nat) ≠ 0)) :=
  ⟨rfl, marshalJSON_fields ⟨1, 5, 7, 9⟩ (.ok true) _ rfl⟩

/-- C7: `AbortTransaction` makes exactly one call through the store's
execute path — the call log holds the single pair of the connection
itself and the request whose statement list is exactly `["ROLLBACK"]` —
and returns precisely the error component the store produced, with no
retry or modification. -/
theorem abortTransaction_one_rollback {Resp Err : Type}
    (f : Connection → ExecuteRequest → Resp × Option Err)
    (c : Connection) :
    AbortTransaction c (loggingExecute f) [] =
        ([(c, rollbackRequest)], (f c rollbackRequest).2) ∧
      rollbackRequest.Queries = ["ROLLBACK"] :=
  ⟨rfl, rfl⟩

/-- C9: a freshly constructed connection has zero `txStartedAt` and
`lastUsedAt` and `createdAt` equal to the construction time, so its
serialized status carries only the three mandatory fields and omits both
optional timestamps. -/
theorem newConnection_fresh_status (id now : Nat) (fk : Bool) :
    (NewConnection id now).txStartedAt = 0 ∧
      (NewConnection id now).lastUsedAt = 0 ∧
      (NewConnection id now).createdAt = now ∧
      MarshalJSON (NewConnection id now) (.ok fk) =
        .ok [("fk_constraints", JVal.str (enabledFromBool fk)),
             ("id", JVal.num id), ("created_at", JVal.time now)] :=
  ⟨rfl, rfl, rfl, by simp [MarshalJSON, NewConnection]⟩

end RqliteStore
